import Mathlib

/-!
# Verification of the `logz` leveled-logging library

Shallow embedding of the two source files of the repository:

* `multiwriter.go` — a failure-tolerant fan-out writer (`multiWriter`,
  `MultiWriter`);
* `logz.go` — the global leveled logger (`Init`, `Close`, `Log`/`Logf`,
  the per-severity wrappers, `GetLogLevel`, `getLogPrefix`, `newLogger`,
  `getLogger`).

Go `io.Writer` interface values are modelled by the inductive `GoWriter`:
`os.Stdout` is a distinguished constructor, user-supplied sinks are
`custom id`, and the two distinct multi-writer concrete types (the
package's own `*multiWriter` and the standard library's `*io.multiWriter`,
which are different Go types and do not flatten each other) get separate
constructors.  Go interface equality (`out != w`) is structural equality
of these values.  Byte-level I/O is modelled as a trace of write events;
`os.Exit` and `panic` are modelled as fields of the result record.
-/

namespace Logz

/-- A Go `io.Writer` interface value.
`stdout` is `os.Stdout`; `custom id` is any other user-supplied sink;
`mwRepo ws` is the package's own `*multiWriter` (from `multiwriter.go`)
holding the slice `ws`; `mwIo ws` is the standard library's
`*io.multiWriter` (as produced by `io.MultiWriter` in `newLogger`). -/
inductive GoWriter : Type where
  | stdout : GoWriter
  | custom (id : Nat) : GoWriter
  | mwRepo (ws : List GoWriter) : GoWriter
  | mwIo (ws : List GoWriter) : GoWriter

mutual

/-- Structural (Go interface) equality of writer values. -/
def GoWriter.beq : GoWriter → GoWriter → Bool
  | .stdout, .stdout => true
  | .custom a, .custom b => a == b
  | .mwRepo l, .mwRepo m => GoWriter.beqList l m
  | .mwIo l, .mwIo m => GoWriter.beqList l m
  | _, _ => false

def GoWriter.beqList : List GoWriter → List GoWriter → Bool
  | [], [] => true
  | a :: l, b :: m => GoWriter.beq a b && GoWriter.beqList l m
  | _, _ => false

end

mutual

theorem GoWriter.beq_iff : ∀ a b : GoWriter, GoWriter.beq a b = true ↔ a = b
  | .stdout, .stdout => by simp [GoWriter.beq]
  | .stdout, .custom _ | .stdout, .mwRepo _ | .stdout, .mwIo _ => by simp [GoWriter.beq]
  | .custom _, .stdout | .custom _, .mwRepo _ | .custom _, .mwIo _ => by simp [GoWriter.beq]
  | .custom a, .custom b => by simp [GoWriter.beq]
  | .mwRepo _, .stdout | .mwRepo _, .custom _ | .mwRepo _, .mwIo _ => by simp [GoWriter.beq]
  | .mwRepo l, .mwRepo m => by
      simp [GoWriter.beq, GoWriter.beqList_iff l m]
  | .mwIo _, .stdout | .mwIo _, .custom _ | .mwIo _, .mwRepo _ => by simp [GoWriter.beq]
  | .mwIo l, .mwIo m => by
      simp [GoWriter.beq, GoWriter.beqList_iff l m]

theorem GoWriter.beqList_iff : ∀ l m : List GoWriter, GoWriter.beqList l m = true ↔ l = m
  | [], [] => by simp [GoWriter.beqList]
  | [], _ :: _ | _ :: _, [] => by simp [GoWriter.beqList]
  | a :: l, b :: m => by
      simp [GoWriter.beqList, GoWriter.beq_iff a b, GoWriter.beqList_iff l m]

end

instance : DecidableEq GoWriter := fun a b =>
  decidable_of_iff _ (GoWriter.beq_iff a b)

/-- Is this writer the package's own `*multiWriter` type?  (Mirrors the Go
type assertion `w.(*multiWriter)` in `MultiWriter`.) -/
def GoWriter.isRepoMulti : GoWriter → Bool
  | .mwRepo _ => true
  | _ => false

/-- The writer slice owned by a `*multiWriter` (empty for other types). -/
def GoWriter.ownedWriters : GoWriter → List GoWriter
  | .mwRepo ws => ws
  | _ => []

/-! ## `multiwriter.go` -/

/-- The write result `(n, err)` a destination reports; the fan-out writer
discards it.  A destination behaviour `beh : GoWriter → List Nat → WriteRes`
assigns every sink its (possibly failing) result on a given byte slice. -/
structure WriteRes where
  n : Nat
  err : Option String
deriving DecidableEq, Repr

/-- One `w.Write(p)` call made by the fan-out loop: which writer was
invoked, with which bytes, and what result that writer reported (which the
loop ignores). -/
structure WCall where
  w : GoWriter
  p : List Nat
  res : WriteRes
deriving DecidableEq

/-- The loop body of `multiWriter.Write`:
`for _, w := range t.writers { w.Write(p) }` — each owned writer is invoked
once, in slice order, and its result is dropped. -/
def mwWriteLoop (beh : GoWriter → List Nat → WriteRes) :
    List GoWriter → List Nat → List WCall
  | [], _ => []
  | w :: ws, p => ⟨w, p, beh w p⟩ :: mwWriteLoop beh ws p

/-- `func (t *multiWriter) Write(p []byte) (n int, err error)`: runs the
loop, then returns `n = len(p)` and a nil error.  The result is the call
trace paired with the Go return values. -/
def multiWriter.Write (beh : GoWriter → List Nat → WriteRes)
    (writers : List GoWriter) (p : List Nat) :
    List WCall × Nat × Option String :=
  (mwWriteLoop beh writers p, p.length, none)

/-- Splicing of one argument of `MultiWriter`: a `*multiWriter` argument
contributes its children, anything else contributes itself. -/
def expandRepo : GoWriter → List GoWriter
  | .mwRepo ws => ws
  | w => [w]

/-- The accumulation loop of `func MultiWriter(writers ...io.Writer)`:
`if mw, ok := w.(*multiWriter); ok { append(allWriters, mw.writers...) }
else { append(allWriters, w) }`. -/
def multiWriterCollect : List GoWriter → List GoWriter
  | [] => []
  | w :: ws => expandRepo w ++ multiWriterCollect ws

/-- `func MultiWriter(writers ...io.Writer) io.Writer`: returns
`&multiWriter{allWriters}`. -/
def MultiWriter (writers : List GoWriter) : GoWriter :=
  .mwRepo (multiWriterCollect writers)

/-- Writers obtainable by the package's clients as `MultiWriter` arguments:
either not a `*multiWriter` at all (the type is unexported, so outside the
package, values of it only arise from `MultiWriter`), or a result of
`MultiWriter` on such writers. -/
inductive BuiltOk : GoWriter → Prop
  | leaf (w : GoWriter) : w.isRepoMulti = false → BuiltOk w
  | built (ws : List GoWriter) : (∀ x ∈ ws, BuiltOk x) → BuiltOk (MultiWriter ws)

/-! ## `logz.go` — data model

`LogLevel` is a Go `byte`; its values live in `0 ≤ l < 256` and all
comparisons in the source are the unsigned order, so we model it as `Nat`
(the meaningful constants are `LogLevelTrace = 0 … LogLevelCritical = 4`).
-/

/-- `LogLevelTrace` -/
def LogLevelTrace : Nat := 0

/-- `LogLevelInfo` -/
def LogLevelInfo : Nat := 1

/-- `LogLevelWarning` -/
def LogLevelWarning : Nat := 2

/-- `LogLevelError` -/
def LogLevelError : Nat := 3

/-- `LogLevelCritical` -/
def LogLevelCritical : Nat := 4

/-- The two sentinel errors of `logz.go`:
`NotInitializedErr = errors.New("Logz is not initialized")` and
`InitializedErr = errors.New("Logz is already initialized")`. -/
inductive GoErr : Type where
  | notInitedErr : GoErr
  | alreadyInitedErr : GoErr
deriving DecidableEq, Repr

/-- A `*log.Logger` as built by `log.New(w, prefix, flags)`: destination
writer, prefix string, flag bits. -/
structure GoLogger where
  out : GoWriter
  pfx : String
  flags : Nat
deriving DecidableEq

/-- The package-level mutable state of `logz.go`: the `initialized` flag
(named `inited` here), the five per-severity `*log.Logger` variables (Go
nil = `none`), `logStack`, and `write` (Go nil = `none`). -/
structure LoggerState where
  inited : Bool
  lTrace : Option GoLogger
  lInfo : Option GoLogger
  lWarning : Option GoLogger
  lError : Option GoLogger
  lCritical : Option GoLogger
  logStack : Nat
  write : Option GoWriter
deriving DecidableEq

/-- The Go zero values of the package-level variables at process start. -/
def startState : LoggerState :=
  { inited := false, lTrace := none, lInfo := none, lWarning := none,
    lError := none, lCritical := none, logStack := 0, write := none }

/-- `func getLogPrefix(level LogLevel) string`. -/
def getLogPrefix (level : Nat) : String :=
  if level = LogLevelTrace then "TRACE|"
  else if level = LogLevelInfo then " INFO|"
  else if level = LogLevelWarning then " WARN|"
  else if level = LogLevelError then "ERROR|"
  else if level = LogLevelCritical then "FATAL|"
  else ""

/-- Splicing done by the standard library's `io.MultiWriter`: an argument
of its own `*io.multiWriter` type contributes its children. -/
def expandIo : GoWriter → List GoWriter
  | .mwIo ws => ws
  | w => [w]

/-- The accumulation loop of the standard library's `io.MultiWriter`. -/
def ioMultiWriterCollect : List GoWriter → List GoWriter
  | [] => []
  | w :: ws => expandIo w ++ ioMultiWriterCollect ws

/-- `io.MultiWriter(writers...)` from the Go standard library, as called
by `newLogger`. -/
def ioMultiWriter (writers : List GoWriter) : GoWriter :=
  .mwIo (ioMultiWriterCollect writers)

/-- The writer-resolution part of
`func newLogger(level LogLevel, out io.Writer, logStdLevel, logOutLevel
LogLevel, flags int) *log.Logger`:

    var w io.Writer
    if level >= logStdLevel { w = os.Stdout }
    if level >= logOutLevel && out != w {
        if w != nil { w = io.MultiWriter(w, out) } else { w = out }
    }

`none` is Go's nil `io.Writer`; `out != w` is Go interface inequality,
modelled by (decidable) structural inequality on `Option GoWriter` (the
caller-supplied `out` is a non-nil writer). -/
def newLoggerW (level : Nat) (out : GoWriter) (logStdLevel logOutLevel : Nat) :
    Option GoWriter :=
  let w : Option GoWriter := if logStdLevel ≤ level then some .stdout else none
  if logOutLevel ≤ level ∧ some out ≠ w then
    match w with
    | some x => some (ioMultiWriter [x, out])
    | none => some out
  else w

/-- The rest of `newLogger`: `if w == nil { return nil };
return log.New(w, getLogPrefix(level), flags)`. -/
def newLogger (level : Nat) (out : GoWriter) (logStdLevel logOutLevel : Nat)
    (flags : Nat) : Option GoLogger :=
  match newLoggerW level out logStdLevel logOutLevel with
  | none => none
  | some w => some ⟨w, getLogPrefix level, flags⟩

/-- `log.LstdFlags = log.Ldate | log.Ltime = 3`. -/
def LstdFlags : Nat := 3
/-- `log.Lshortfile = 16`. -/
def Lshortfile : Nat := 16

/-- `func Init(out io.Writer, logStdLevel, logOutLevel, stackLevel
LogLevel, logFileName bool) error`.  Returns the Go error (or nil) and the
package state after the call. -/
def Init (st : LoggerState) (out : GoWriter)
    (logStdLevel logOutLevel stackLevel : Nat) (logFileName : Bool) :
    Option GoErr × LoggerState :=
  if st.inited then (some .alreadyInitedErr, st)
  else
    let flags := LstdFlags ||| (if logFileName then Lshortfile else 0)
    (none,
     { inited := true,
       lTrace := newLogger LogLevelTrace out logStdLevel logOutLevel flags,
       lInfo := newLogger LogLevelInfo out logStdLevel logOutLevel flags,
       lWarning := newLogger LogLevelWarning out logStdLevel logOutLevel flags,
       lError := newLogger LogLevelError out logStdLevel logOutLevel flags,
       lCritical := newLogger LogLevelCritical out logStdLevel logOutLevel flags,
       logStack := stackLevel,
       write := some out })

/-! ## `logz.go` — observable I/O effects of a call -/

/-- One observable output action of the logger.

* `routed lg msg` — `lg.Output(2, msg)`: the formatted line goes to the
  per-level logger's writer `lg.out`;
* `stackDump w` — `fmt.Fprintln(write, string(debug.Stack()))`: the stack
  trace text goes to the raw stored writer `w`;
* `fallback` — `log.Print(NotInitializedErr)`: the uninitialized notice
  goes to the bootstrap standard logger;
* `closedWrite w res` — `write.(io.Closer).Close()` was called on `w` and
  reported `res`, which `Close` ignores. -/
inductive Ev : Type where
  | routed (lg : GoLogger) (msg : String) : Ev
  | stackDump (w : Option GoWriter) : Ev
  | fallback : Ev
  | closedWrite (w : Option GoWriter) (res : Option String) : Ev
deriving DecidableEq

/-- Is this event a stack dump? -/
def Ev.isStackDump : Ev → Bool
  | .stackDump _ => true
  | _ => false

/-- The full outcome of one emit call: the output events it performed, in
order, whether it ended in a `panic` (with the panic message), and whether
it ended the process via `os.Exit` (with the exit status). -/
structure EmitOut where
  events : List Ev
  panics : Option String
  exits : Option Nat
deriving DecidableEq

/-- The outcome of the `if !initialized { log.Print(NotInitializedErr);
return }` fallback path shared by every emit function. -/
def fallbackOut : EmitOut :=
  { events := [.fallback], panics := none, exits := none }

/-- `func getLogger(level LogLevel) *log.Logger`: the five `case` arms
return the package variables; the `default` arm is
`panic(fmt.Sprintf("Invalid log level %v", level))`, modelled as
`.error` carrying the panic message. -/
def getLogger (st : LoggerState) (level : Nat) :
    Except String (Option GoLogger) :=
  if level = LogLevelTrace then .ok st.lTrace
  else if level = LogLevelInfo then .ok st.lInfo
  else if level = LogLevelWarning then .ok st.lWarning
  else if level = LogLevelError then .ok st.lError
  else if level = LogLevelCritical then .ok st.lCritical
  else .error ("Invalid log level " ++ toString level)

/-- The shared tail of every emit function: write the line through the
given `*log.Logger` if it is non-nil, then dump the stack to `write` if
`level >= logStack`. -/
def emitTail (st : LoggerState) (lg : Option GoLogger) (level : Nat)
    (msg : String) : List Ev :=
  (match lg with
   | some l => [.routed l msg]
   | none => []) ++
  (if st.logStack ≤ level then [.stackDump st.write] else [])

/-- `func Log(level LogLevel, v ...interface{})` — the variadic arguments
are abstracted as the already-rendered string `msg = fmt.Sprint(v...)`.
A panic in `getLogger` aborts the call before any output. -/
def Log (st : LoggerState) (level : Nat) (msg : String) : EmitOut :=
  if !st.inited then fallbackOut
  else
    match getLogger st level with
    | .error e => { events := [], panics := some e, exits := none }
    | .ok lg => { events := emitTail st lg level msg, panics := none, exits := none }

/-- `func Logf(level LogLevel, format string, v ...interface{})` — the
format string and arguments are abstracted as the rendered string
`msg = fmt.Sprintf(format, v...)`. -/
def Logf (st : LoggerState) (level : Nat) (msg : String) : EmitOut :=
  if !st.inited then fallbackOut
  else
    match getLogger st level with
    | .error e => { events := [], panics := some e, exits := none }
    | .ok lg => { events := emitTail st lg level msg, panics := none, exits := none }

/-- `func Trace(v ...interface{})`. -/
def Trace (st : LoggerState) (msg : String) : EmitOut :=
  if !st.inited then fallbackOut
  else { events := emitTail st st.lTrace LogLevelTrace msg,
         panics := none, exits := none }

/-- `func Tracef(format string, v ...interface{})`. -/
def Tracef (st : LoggerState) (msg : String) : EmitOut :=
  if !st.inited then fallbackOut
  else { events := emitTail st st.lTrace LogLevelTrace msg,
         panics := none, exits := none }

/-- `func Info(v ...interface{})`. -/
def Info (st : LoggerState) (msg : String) : EmitOut :=
  if !st.inited then fallbackOut
  else { events := emitTail st st.lInfo LogLevelInfo msg,
         panics := none, exits := none }

/-- `func Infof(format string, v ...interface{})`. -/
def Infof (st : LoggerState) (msg : String) : EmitOut :=
  if !st.inited then fallbackOut
  else { events := emitTail st st.lInfo LogLevelInfo msg,
         panics := none, exits := none }

/-- `func Warning(v ...interface{})`. -/
def Warning (st : LoggerState) (msg : String) : EmitOut :=
  if !st.inited then fallbackOut
  else { events := emitTail st st.lWarning LogLevelWarning msg,
         panics := none, exits := none }

/-- `func Warningf(format string, v ...interface{})`. -/
def Warningf (st : LoggerState) (msg : String) : EmitOut :=
  if !st.inited then fallbackOut
  else { events := emitTail st st.lWarning LogLevelWarning msg,
         panics := none, exits := none }

/-- `func Error(v ...interface{})`. -/
def Error (st : LoggerState) (msg : String) : EmitOut :=
  if !st.inited then fallbackOut
  else { events := emitTail st st.lError LogLevelError msg,
         panics := none, exits := none }

/-- `func Errorf(format string, v ...interface{})`. -/
def Errorf (st : LoggerState) (msg : String) : EmitOut :=
  if !st.inited then fallbackOut
  else { events := emitTail st st.lError LogLevelError msg,
         panics := none, exits := none }

/-- `func Critical(v ...interface{})`: like the other wrappers but ends in
an unconditional `os.Exit(1)` — reached only when the initialized check
passed (otherwise the function returned at the fallback). -/
def Critical (st : LoggerState) (msg : String) : EmitOut :=
  if !st.inited then fallbackOut
  else { events := emitTail st st.lCritical LogLevelCritical msg,
         panics := none, exits := some 1 }

/-- `func Criticalf(format string, v ...interface{})`. -/
def Criticalf (st : LoggerState) (msg : String) : EmitOut :=
  if !st.inited then fallbackOut
  else { events := emitTail st st.lCritical LogLevelCritical msg,
         panics := none, exits := some 1 }

/-- `func Close() error`, on the ordinary path where no panic is in
flight (so the `recover()` at its head returns nil and the re-raise is
skipped).  `isCloser w` says whether the stored writer's dynamic type
implements `io.Closer` (the type assertion `write.(io.Closer)`), and
`closeRes w` is the error its `Close()` reports; that error is observable
in the event trace but never in the returned error. -/
def Close (isCloser : Option GoWriter → Bool)
    (closeRes : Option GoWriter → Option String) (st : LoggerState) :
    Option GoErr × LoggerState × List Ev :=
  if !st.inited then (some .notInitedErr, st, [])
  else
    (none, { st with inited := false },
     if isCloser st.write then [.closedWrite st.write (closeRes st.write)] else [])

/-- `func GetLogLevel(str string) LogLevel`: the returned level, paired
with whether the `default` arm printed the
`log.Println("Invalid LogLevel", str)` diagnostic. -/
def GetLogLevel (str : String) : Nat × Bool :=
  if str = "trace" then (LogLevelTrace, false)
  else if str = "info" ∨ str = "information" then (LogLevelInfo, false)
  else if str = "warning" ∨ str = "warn" then (LogLevelWarning, false)
  else if str = "error" then (LogLevelError, false)
  else if str = "fatal" then (LogLevelCritical, false)
  else (LogLevelTrace, true)

/-! ## Helper lemmas -/

/-- The fan-out loop calls each owned writer once, in order. -/
theorem mwWriteLoop_eq_map (beh : GoWriter → List Nat → WriteRes)
    (writers : List GoWriter) (p : List Nat) :
    mwWriteLoop beh writers p = writers.map (fun w => ⟨w, p, beh w p⟩) := by
  induction writers with
  | nil => rfl
  | cons w ws ih => simp [mwWriteLoop, ih]

/-- Membership in the accumulated slice of `MultiWriter`. -/
theorem mem_multiWriterCollect {y : GoWriter} {ws : List GoWriter} :
    y ∈ multiWriterCollect ws ↔ ∃ x ∈ ws, y ∈ expandRepo x := by
  induction ws with
  | nil => simp [multiWriterCollect]
  | cons w ws ih => simp [multiWriterCollect, ih]

/-- Whatever a `MultiWriter` argument contributes to the accumulated slice
is never itself a `*multiWriter`, provided the argument was obtainable by
a client of the package. -/
theorem builtOk_expand_flat {w : GoWriter} (h : BuiltOk w) :
    ∀ y ∈ expandRepo w, y.isRepoMulti = false := by
  induction h with
  | leaf w hw =>
      intro y hy
      cases w <;> simp_all [expandRepo, GoWriter.isRepoMulti]
  | built ws hws ih =>
      intro y hy
      simp only [MultiWriter, expandRepo] at hy
      obtain ⟨x, hx, hyx⟩ := mem_multiWriterCollect.mp hy
      exact ih x hx y hyx

/-! ## Claim theorems -/

/-- C1.  For every severity `level` and Init configuration, the writer
`newLogger` resolves for `level` is exactly: the composition
`io.MultiWriter(os.Stdout, out)` when `level ≥ logStdLevel` and
`level ≥ logOutLevel` and the configured output is not `os.Stdout` itself;
`os.Stdout` alone when `level ≥ logStdLevel` and the sink leg is off
(because `level < logOutLevel`, or because `out` IS `os.Stdout` — no
double write); `out` alone when only `level ≥ logOutLevel` holds; and no
writer at all when neither cutoff passes.  In particular the resolved
writer routes to the stdout leg iff `level ≥ logStdLevel`, and to the
configured output leg iff `level ≥ logOutLevel` and `out` differs from the
resolved stdout value. -/
theorem newLogger_routing (level : Nat) (out : GoWriter)
    (logStdLevel logOutLevel : Nat) :
    newLoggerW level out logStdLevel logOutLevel =
      if logStdLevel ≤ level then
        if logOutLevel ≤ level ∧ out ≠ .stdout then
          some (ioMultiWriter [.stdout, out])
        else some .stdout
      else
        if logOutLevel ≤ level then some out
        else none := by
  by_cases h1 : logStdLevel ≤ level <;>
    by_cases h2 : logOutLevel ≤ level <;>
      simp [newLoggerW, h1, h2]

/-- C2.  `multiWriter.Write p` calls the `Write` of every owned
destination exactly once, in slice order, with the full slice `p`, and
returns `(len p, nil)` — whatever results (including failures) the
individual destinations report, since the loop discards them. -/
theorem multiWriter_Write_spec (beh : GoWriter → List Nat → WriteRes)
    (writers : List GoWriter) (p : List Nat) :
    multiWriter.Write beh writers p =
      (writers.map (fun w => ⟨w, p, beh w p⟩), p.length, none) := by
  simp [multiWriter.Write, mwWriteLoop_eq_map]

/-- C3.  If every argument is either a non-`multiWriter` writer or itself
built by `MultiWriter` from such writers, then `MultiWriter` returns a
fan-out writer none of whose owned elements is a fan-out writer (the
result is again well-built, so further composition stays flat), and a
broadcast from the result invokes exactly the accumulated leaf sinks, each
exactly once, in the order their contributing arguments were supplied. -/
theorem MultiWriter_flat (ws : List GoWriter) (h : ∀ x ∈ ws, BuiltOk x) :
    (∀ y ∈ (MultiWriter ws).ownedWriters, y.isRepoMulti = false) ∧
    BuiltOk (MultiWriter ws) ∧
    (MultiWriter ws).ownedWriters = multiWriterCollect ws ∧
    ∀ (beh : GoWriter → List Nat → WriteRes) (p : List Nat),
      (multiWriter.Write beh (MultiWriter ws).ownedWriters p).1 =
        (multiWriterCollect ws).map (fun w => ⟨w, p, beh w p⟩) := by
  refine ⟨?_, .built ws h, rfl, ?_⟩
  · intro y hy
    simp only [MultiWriter, GoWriter.ownedWriters] at hy
    obtain ⟨x, hx, hyx⟩ := mem_multiWriterCollect.mp hy
    exact builtOk_expand_flat (h x hx) y hyx
  · intro beh p
    simp [multiWriter.Write, mwWriteLoop_eq_map, MultiWriter, GoWriter.ownedWriters]

/-- Witness for C3 at a concrete nested composition. -/
theorem MultiWriter_flat_witness :
    (∀ y ∈ (MultiWriter [.custom 0, MultiWriter [.custom 1, .custom 2]]).ownedWriters,
        y.isRepoMulti = false) ∧
    BuiltOk (MultiWriter [.custom 0, MultiWriter [.custom 1, .custom 2]]) ∧
    (MultiWriter [.custom 0, MultiWriter [.custom 1, .custom 2]]).ownedWriters =
      multiWriterCollect [.custom 0, MultiWriter [.custom 1, .custom 2]] ∧
    ∀ (beh : GoWriter → List Nat → WriteRes) (p : List Nat),
      (multiWriter.Write beh
        (MultiWriter [.custom 0, MultiWriter [.custom 1, .custom 2]]).ownedWriters p).1 =
        (multiWriterCollect [.custom 0, MultiWriter [.custom 1, .custom 2]]).map
          (fun w => ⟨w, p, beh w p⟩) :=
  MultiWriter_flat _ (by
    intro x hx
    simp only [List.mem_cons, List.not_mem_nil, or_false] at hx
    rcases hx with h | h <;> subst h
    · exact .leaf _ rfl
    · exact .built _ (by
        intro x hx
        simp only [List.mem_cons, List.not_mem_nil, or_false] at hx
        rcases hx with h | h <;> subst h <;> exact .leaf _ rfl))

/-- Filtering the stack dumps out of one emission. -/
theorem emitTail_filter_stackDump (st : LoggerState) (lg : Option GoLogger)
    (level : Nat) (msg : String) :
    (emitTail st lg level msg).filter Ev.isStackDump =
      if st.logStack ≤ level then [.stackDump st.write] else [] := by
  by_cases h : st.logStack ≤ level <;>
    cases lg <;> simp [emitTail, h, Ev.isStackDump, List.filter]

/-- C4 counterexample.  `Init` succeeds with `logStdLevel = logOutLevel =
Info` and `stackLevel = Trace`; the Trace severity is below both routing
cutoffs (no per-level destination), yet `Log` at Trace still produces
output: the stack dump to the configured writer. -/
theorem log_disabled_claim_cex :
    (Init startState (.custom 0) LogLevelInfo LogLevelInfo LogLevelTrace false).1
      = none ∧
    LogLevelTrace < LogLevelInfo ∧
    (Log (Init startState (.custom 0) LogLevelInfo LogLevelInfo LogLevelTrace
        false).2 LogLevelTrace "x").events ≠ [] := by
  refine ⟨rfl, by decide, ?_⟩
  have h : (Log (Init startState (.custom 0) LogLevelInfo LogLevelInfo
      LogLevelTrace false).2 LogLevelTrace "x").events =
      [.stackDump (some (.custom 0))] := rfl
  simp [h]

/-- C4 (amended).  If a severity is below the stdout cutoff, the sink
cutoff AND the stack-dump cutoff, then after a successful `Init` an emit
call at it passes the initialized check and produces no output at all:
no events, no panic, no exit — for `Log` and `Logf` alike. -/
theorem log_disabled_noop (st : LoggerState) (out : GoWriter)
    (logStdLevel logOutLevel stackLevel : Nat) (fn : Bool)
    (level : Nat) (msg : String)
    (h0 : st.inited = false)
    (h1 : level < logStdLevel) (h2 : level < logOutLevel)
    (h3 : level < stackLevel) (h4 : level ≤ LogLevelCritical) :
    (Init st out logStdLevel logOutLevel stackLevel fn).1 = none ∧
    Log (Init st out logStdLevel logOutLevel stackLevel fn).2 level msg =
      { events := [], panics := none, exits := none } ∧
    Logf (Init st out logStdLevel logOutLevel stackLevel fn).2 level msg =
      { events := [], panics := none, exits := none } := by
  have h1' : ¬ logStdLevel ≤ level := by omega
  have h2' : ¬ logOutLevel ≤ level := by omega
  have h3' : ¬ stackLevel ≤ level := by omega
  simp only [LogLevelCritical] at h4
  refine ⟨by simp [Init, h0], ?_, ?_⟩ <;>
    interval_cases level <;>
      simp [Init, Log, Logf, getLogger, newLogger, newLoggerW, emitTail,
        h0, h1', h2', h3', LogLevelTrace, LogLevelInfo, LogLevelWarning,
        LogLevelError, LogLevelCritical]

/-- Witness for C4 (amended): severity Trace, all three cutoffs at Info. -/
theorem log_disabled_noop_witness :
    (Init startState (.custom 0) LogLevelInfo LogLevelInfo LogLevelInfo
        false).1 = none ∧
    Log (Init startState (.custom 0) LogLevelInfo LogLevelInfo LogLevelInfo
        false).2 LogLevelTrace "x" =
      { events := [], panics := none, exits := none } ∧
    Logf (Init startState (.custom 0) LogLevelInfo LogLevelInfo LogLevelInfo
        false).2 LogLevelTrace "x" =
      { events := [], panics := none, exits := none } :=
  log_disabled_noop startState (.custom 0) LogLevelInfo LogLevelInfo
    LogLevelInfo false LogLevelTrace "x" rfl (by decide) (by decide)
    (by decide) (by decide)

/-- C5.  After a successful `Init`, every `Log`/`Logf` call at a severity
`level ≤ Critical` with `level ≥ stackLevel` writes the stack trace —
exactly one stack dump, and its destination is the raw configured output
`out`, not the routed per-level writer — regardless of the routing cutoffs
(so also when the per-level destination is disabled). -/
theorem stack_dump_to_out (st : LoggerState) (out : GoWriter)
    (logStdLevel logOutLevel stackLevel : Nat) (fn : Bool)
    (level : Nat) (msg : String)
    (h0 : st.inited = false) (h1 : level ≤ LogLevelCritical)
    (h2 : stackLevel ≤ level) :
    (Log (Init st out logStdLevel logOutLevel stackLevel fn).2 level
        msg).events.filter Ev.isStackDump = [.stackDump (some out)] ∧
    (Logf (Init st out logStdLevel logOutLevel stackLevel fn).2 level
        msg).events.filter Ev.isStackDump = [.stackDump (some out)] ∧
    (∀ m : String,
      (Trace (Init st out logStdLevel logOutLevel stackLevel fn).2 m).events
        = (Log (Init st out logStdLevel logOutLevel stackLevel fn).2
            LogLevelTrace m).events ∧
      (Tracef (Init st out logStdLevel logOutLevel stackLevel fn).2 m).events
        = (Logf (Init st out logStdLevel logOutLevel stackLevel fn).2
            LogLevelTrace m).events ∧
      (Info (Init st out logStdLevel logOutLevel stackLevel fn).2 m).events
        = (Log (Init st out logStdLevel logOutLevel stackLevel fn).2
            LogLevelInfo m).events ∧
      (Infof (Init st out logStdLevel logOutLevel stackLevel fn).2 m).events
        = (Logf (Init st out logStdLevel logOutLevel stackLevel fn).2
            LogLevelInfo m).events ∧
      (Warning (Init st out logStdLevel logOutLevel stackLevel fn).2 m).events
        = (Log (Init st out logStdLevel logOutLevel stackLevel fn).2
            LogLevelWarning m).events ∧
      (Warningf (Init st out logStdLevel logOutLevel stackLevel fn).2 m).events
        = (Logf (Init st out logStdLevel logOutLevel stackLevel fn).2
            LogLevelWarning m).events ∧
      (Error (Init st out logStdLevel logOutLevel stackLevel fn).2 m).events
        = (Log (Init st out logStdLevel logOutLevel stackLevel fn).2
            LogLevelError m).events ∧
      (Errorf (Init st out logStdLevel logOutLevel stackLevel fn).2 m).events
        = (Logf (Init st out logStdLevel logOutLevel stackLevel fn).2
            LogLevelError m).events ∧
      (Critical (Init st out logStdLevel logOutLevel stackLevel fn).2 m).events
        = (Log (Init st out logStdLevel logOutLevel stackLevel fn).2
            LogLevelCritical m).events ∧
      (Criticalf (Init st out logStdLevel logOutLevel stackLevel fn).2
          m).events
        = (Logf (Init st out logStdLevel logOutLevel stackLevel fn).2
            LogLevelCritical m).events) := by
  simp only [LogLevelCritical] at h1
  refine ⟨?_, ?_, ?_⟩
  · interval_cases level <;>
      simp [Init, Log, getLogger, h0, emitTail_filter_stackDump, h2,
        LogLevelTrace, LogLevelInfo, LogLevelWarning, LogLevelError,
        LogLevelCritical]
  · interval_cases level <;>
      simp [Init, Logf, getLogger, h0, emitTail_filter_stackDump, h2,
        LogLevelTrace, LogLevelInfo, LogLevelWarning, LogLevelError,
        LogLevelCritical]
  · intro m
    simp [Init, Log, Logf, Trace, Tracef, Info, Infof, Warning, Warningf,
      Error, Errorf, Critical, Criticalf, getLogger, h0, LogLevelTrace,
      LogLevelInfo, LogLevelWarning, LogLevelError, LogLevelCritical]

/-- Witness for C5: stack cutoff Trace, emit at Error. -/
theorem stack_dump_to_out_witness :
    (Log (Init startState (.custom 0) LogLevelInfo LogLevelInfo
        LogLevelTrace false).2 LogLevelError "x").events.filter
        Ev.isStackDump = [.stackDump (some (.custom 0))] ∧
    (Logf (Init startState (.custom 0) LogLevelInfo LogLevelInfo
        LogLevelTrace false).2 LogLevelError "x").events.filter
        Ev.isStackDump = [.stackDump (some (.custom 0))] :=
  ⟨(stack_dump_to_out startState (.custom 0) LogLevelInfo LogLevelInfo
      LogLevelTrace false LogLevelError "x" rfl (by decide) (by decide)).1,
   (stack_dump_to_out startState (.custom 0) LogLevelInfo LogLevelInfo
      LogLevelTrace false LogLevelError "x" rfl (by decide)
      (by decide)).2.1⟩

/-- C6.  Starting uninitialized, the first `Init` succeeds and sets the
flag; a second `Init` with any arguments returns `InitializedErr` and
returns the state of the first call completely unchanged (per-severity
loggers, stack threshold, stored output, flag). -/
theorem init_twice (st : LoggerState)
    (out1 : GoWriter) (s1 o1 k1 : Nat) (f1 : Bool)
    (out2 : GoWriter) (s2 o2 k2 : Nat) (f2 : Bool)
    (h0 : st.inited = false) :
    (Init st out1 s1 o1 k1 f1).1 = none ∧
    (Init st out1 s1 o1 k1 f1).2.inited = true ∧
    Init (Init st out1 s1 o1 k1 f1).2 out2 s2 o2 k2 f2 =
      (some .alreadyInitedErr, (Init st out1 s1 o1 k1 f1).2) := by
  simp [Init, h0]

/-- Witness for C6 with two different configurations. -/
theorem init_twice_witness :
    (Init startState (.custom 0) 1 2 3 true).1 = none ∧
    (Init startState (.custom 0) 1 2 3 true).2.inited = true ∧
    Init (Init startState (.custom 0) 1 2 3 true).2 (.custom 7) 0 0 0 false =
      (some .alreadyInitedErr, (Init startState (.custom 0) 1 2 3 true).2) :=
  init_twice startState (.custom 0) 1 2 3 true (.custom 7) 0 0 0 false rfl

/-- `Log` never calls `os.Exit`. -/
theorem Log_exits_none (s : LoggerState) (l : Nat) (m : String) :
    (Log s l m).exits = none := by
  unfold Log
  split
  · rfl
  · split <;> rfl

/-- `Logf` never calls `os.Exit`. -/
theorem Logf_exits_none (s : LoggerState) (l : Nat) (m : String) :
    (Logf s l m).exits = none := by
  unfold Logf
  split
  · rfl
  · split <;> rfl

/-- C7.  `Close` before `Init` returns `NotInitializedErr`, leaves the
state untouched and closes nothing.  `Close` when initialized returns a
nil error, only clears the `initialized` flag, calls `Close()` on the
stored writer exactly when its type supports it — whatever error that
reports is ignored (the returned error is nil for every `closeRes`) — and
afterwards every emit call takes the uninitialized fallback path. -/
theorem close_spec (isCloser : Option GoWriter → Bool)
    (closeRes : Option GoWriter → Option String) (st : LoggerState) :
    (st.inited = false →
      Close isCloser closeRes st = (some .notInitedErr, st, [])) ∧
    (st.inited = true →
      (Close isCloser closeRes st).1 = none ∧
      (Close isCloser closeRes st).2.1 = { st with inited := false } ∧
      (Close isCloser closeRes st).2.2 =
        (if isCloser st.write
         then [.closedWrite st.write (closeRes st.write)] else []) ∧
      ∀ (level : Nat) (msg : String),
        Log (Close isCloser closeRes st).2.1 level msg = fallbackOut ∧
        Logf (Close isCloser closeRes st).2.1 level msg = fallbackOut ∧
        Trace (Close isCloser closeRes st).2.1 msg = fallbackOut ∧
        Tracef (Close isCloser closeRes st).2.1 msg = fallbackOut ∧
        Info (Close isCloser closeRes st).2.1 msg = fallbackOut ∧
        Infof (Close isCloser closeRes st).2.1 msg = fallbackOut ∧
        Warning (Close isCloser closeRes st).2.1 msg = fallbackOut ∧
        Warningf (Close isCloser closeRes st).2.1 msg = fallbackOut ∧
        Error (Close isCloser closeRes st).2.1 msg = fallbackOut ∧
        Errorf (Close isCloser closeRes st).2.1 msg = fallbackOut ∧
        Critical (Close isCloser closeRes st).2.1 msg = fallbackOut ∧
        Criticalf (Close isCloser closeRes st).2.1 msg = fallbackOut) := by
  constructor
  · intro h
    simp [Close, h]
  · intro h
    refine ⟨by simp [Close, h], by simp [Close, h], by simp [Close, h], ?_⟩
    intro level msg
    simp [Close, h, Log, Logf, Trace, Tracef, Info, Infof, Warning,
      Warningf, Error, Errorf, Critical, Criticalf]

/-- Witness for C7: both branches, at the start state and at a state
produced by a successful `Init`, with a close-supporting writer whose
`Close()` fails. -/
theorem close_spec_witness :
    Close (fun _ => true) (fun _ => some "boom") startState =
      (some .notInitedErr, startState, []) ∧
    (Close (fun _ => true) (fun _ => some "boom")
      (Init startState (.custom 0) 1 1 1 false).2).1 = none :=
  ⟨(close_spec _ _ startState).1 rfl,
   ((close_spec _ _ (Init startState (.custom 0) 1 1 1 false).2).2 rfl).1⟩

/-- C8 counterexample.  A call to `Critical`/`Criticalf` in the
uninitialized state takes the fallback path and returns to the caller
without exiting the process, so not every call terminates the process. -/
theorem critical_uninit_returns_cex :
    (Critical startState "x").exits = none ∧
    (Criticalf startState "x").exits = none :=
  ⟨rfl, rfl⟩

/-- C8 (amended).  In the initialized state, `Critical`/`Criticalf` exit
the process with status `1` (non-zero) after completing exactly the
emission `Log`/`Logf` at Critical would perform (message write and any
stack dump); and no other emit operation of the package ever exits. -/
theorem critical_exits (st : LoggerState) (msg : String)
    (h : st.inited = true) :
    (Critical st msg).exits = some 1 ∧
    (Criticalf st msg).exits = some 1 ∧
    (Critical st msg).events = (Log st LogLevelCritical msg).events ∧
    (Criticalf st msg).events = (Logf st LogLevelCritical msg).events ∧
    (∀ (s : LoggerState) (l : Nat) (m : String),
      (Log s l m).exits = none ∧ (Logf s l m).exits = none) ∧
    (∀ (s : LoggerState) (m : String),
      (Trace s m).exits = none ∧ (Tracef s m).exits = none ∧
      (Info s m).exits = none ∧ (Infof s m).exits = none ∧
      (Warning s m).exits = none ∧ (Warningf s m).exits = none ∧
      (Error s m).exits = none ∧ (Errorf s m).exits = none) := by
  refine ⟨by simp [Critical, h], by simp [Criticalf, h], ?_, ?_, ?_, ?_⟩
  · simp [Critical, Log, getLogger, h, LogLevelCritical, LogLevelTrace,
      LogLevelInfo, LogLevelWarning, LogLevelError]
  · simp [Criticalf, Logf, getLogger, h, LogLevelCritical, LogLevelTrace,
      LogLevelInfo, LogLevelWarning, LogLevelError]
  · exact fun s l m => ⟨Log_exits_none s l m, Logf_exits_none s l m⟩
  · intro s m
    cases hs : s.inited <;>
      simp [Trace, Tracef, Info, Infof, Warning, Warningf, Error, Errorf,
        hs, fallbackOut]

/-- Witness for C8 (amended) at a concrete initialized state. -/
theorem critical_exits_witness :
    (Critical (Init startState (.custom 0) 1 1 1 false).2 "x").exits =
      some 1 ∧
    (Criticalf (Init startState (.custom 0) 1 1 1 false).2 "x").exits =
      some 1 :=
  ⟨(critical_exits (Init startState (.custom 0) 1 1 1 false).2 "x" rfl).1,
   (critical_exits (Init startState (.custom 0) 1 1 1 false).2 "x"
     rfl).2.1⟩

/-- C9.  `GetLogLevel` maps exactly the seven case-sensitive literals to
their severities with no diagnostic, and every other string to Trace with
the diagnostic printed. -/
theorem getLogLevel_spec :
    GetLogLevel "trace" = (LogLevelTrace, false) ∧
    GetLogLevel "info" = (LogLevelInfo, false) ∧
    GetLogLevel "information" = (LogLevelInfo, false) ∧
    GetLogLevel "warning" = (LogLevelWarning, false) ∧
    GetLogLevel "warn" = (LogLevelWarning, false) ∧
    GetLogLevel "error" = (LogLevelError, false) ∧
    GetLogLevel "fatal" = (LogLevelCritical, false) ∧
    ∀ s : String,
      s ∉ (["trace", "info", "information", "warning", "warn", "error",
            "fatal"] : List String) →
        GetLogLevel s = (LogLevelTrace, true) := by
  refine ⟨rfl, rfl, rfl, rfl, rfl, rfl, rfl, ?_⟩
  intro s hs
  simp only [List.mem_cons, List.not_mem_nil, or_false, not_or] at hs
  obtain ⟨n1, n2, n3, n4, n5, n6, n7⟩ := hs
  simp [GetLogLevel, n1, n2, n3, n4, n5, n6, n7]

/-- Witness for C9's unrecognized-input clause. -/
theorem getLogLevel_spec_witness :
    GetLogLevel "bogus" = (LogLevelTrace, true) :=
  getLogLevel_spec.2.2.2.2.2.2.2 "bogus" (by decide)

/-- C10.  After a successful `Init`, `Log`/`Logf` at any level above
Critical panic in `getLogger` with the `Invalid log level` message before
producing any output, while the ten severity-specific wrappers never
panic in any state. -/
theorem log_invalid_level_panics (st : LoggerState) (level : Nat)
    (msg : String) (h0 : st.inited = true) (h1 : LogLevelCritical < level) :
    Log st level msg =
      { events := [],
        panics := some ("Invalid log level " ++ toString level),
        exits := none } ∧
    Logf st level msg =
      { events := [],
        panics := some ("Invalid log level " ++ toString level),
        exits := none } ∧
    (∀ (s : LoggerState) (m : String),
      (Trace s m).panics = none ∧ (Tracef s m).panics = none ∧
      (Info s m).panics = none ∧ (Infof s m).panics = none ∧
      (Warning s m).panics = none ∧ (Warningf s m).panics = none ∧
      (Error s m).panics = none ∧ (Errorf s m).panics = none ∧
      (Critical s m).panics = none ∧ (Criticalf s m).panics = none) := by
  simp only [LogLevelCritical] at h1
  have e0 : ¬ level = LogLevelTrace := by simp [LogLevelTrace]; omega
  have e1 : ¬ level = LogLevelInfo := by simp [LogLevelInfo]; omega
  have e2 : ¬ level = LogLevelWarning := by simp [LogLevelWarning]; omega
  have e3 : ¬ level = LogLevelError := by simp [LogLevelError]; omega
  have e4 : ¬ level = LogLevelCritical := by simp [LogLevelCritical]; omega
  refine ⟨by simp [Log, getLogger, h0, e0, e1, e2, e3, e4],
          by simp [Logf, getLogger, h0, e0, e1, e2, e3, e4], ?_⟩
  intro s m
  cases hs : s.inited <;>
    simp [Trace, Tracef, Info, Infof, Warning, Warningf, Error, Errorf,
      Critical, Criticalf, hs, fallbackOut]

/-- Witness for C10 at level 5 (the first byte above Critical). -/
theorem log_invalid_level_panics_witness :
    Log (Init startState (.custom 0) 1 1 1 false).2 5 "x" =
      { events := [],
        panics := some ("Invalid log level " ++ toString 5),
        exits := none } :=
  (log_invalid_level_panics (Init startState (.custom 0) 1 1 1 false).2
    5 "x" rfl (by decide)).1

end Logz
